import Mathlib

/-!
Shallow embedding of the AWS-Cost-Optimizer lambdas:

* `src/lamda/cost_analyzer.py`      — Finder: classifier + tagger + reporter
* `src/lamda/resource_cleanup.py`   — Reaper: eligibility check, safety
  snapshot, destructive actions, ledger writes
* `src/lamda/cost_savings_query.py` — Ledger aggregator

Modelling conventions:

* Monetary amounts are rationals (the source uses Python floats); `round2`
  models Python's `round(x, 2)`.  Mathlib's `round` rounds halves up while
  Python rounds the nearest binary float half to even; the two agree except
  at exact half-cent ties, which no verified claim exercises.
* Timestamps compared by the snapshot-age check are integer seconds since an
  arbitrary epoch; calendar dates are a `Date` structure obeying the
  Gregorian rules of Python's `datetime.date`.
* Remote AWS calls are an explicit environment `Ec2Env` of fallible
  functions; the trace of mutating EC2 calls a run issues is returned as a
  `List AwsCall`.  DynamoDB `put_item` calls are modelled by the list of
  `LedgerItem`s written, under the assumption that the ledger store accepts
  every write (the source catches and ignores ledger-write failures).
-/

namespace AwsCostOptimizer

/-! ### Configuration constants (cost_analyzer.py lines 12-15, resource_cleanup.py lines 14-16) -/

def TAG_KEY : String := "CostOptimization"

def TAG_VALUE_PREFIX : String := "DeleteAfter-"

def GRACE_PERIOD_DAYS : Nat := 7

def SNAPSHOT_AGE_THRESHOLD_DAYS : Nat := 90

/-! ### Calendar dates (`datetime.date`) -/

/-- A Gregorian calendar date, as Python's `datetime.date`. -/
structure Date where
  year : Nat
  month : Nat
  day : Nat
deriving DecidableEq, Repr

def isLeap (y : Nat) : Bool :=
  (y % 4 == 0 && y % 100 != 0) || (y % 400 == 0)

def daysInMonth (y m : Nat) : Nat :=
  if m == 2 then (if isLeap y then 29 else 28)
  else if m == 4 || m == 6 || m == 9 || m == 11 then 30
  else 31

/-- Calendar order on dates (Python's `date` comparison). -/
def Date.le (a b : Date) : Bool :=
  a.year < b.year ||
    (a.year == b.year &&
      (a.month < b.month || (a.month == b.month && a.day ≤ b.day)))

/-- The day after `d`, with month and year rollover. -/
def Date.next (d : Date) : Date :=
  if d.day < daysInMonth d.year d.month then ⟨d.year, d.month, d.day + 1⟩
  else if d.month < 12 then ⟨d.year, d.month + 1, 1⟩
  else ⟨d.year + 1, 1, 1⟩

/-- Adding `n` days, as Python's `date + timedelta(days=n)`. -/
def Date.addDays (d : Date) (n : Nat) : Date :=
  Date.next^[n] d

def pad2 (n : Nat) : String :=
  if n < 10 then "0" ++ toString n else toString n

def pad4 (n : Nat) : String :=
  if n < 10 then "000" ++ toString n
  else if n < 100 then "00" ++ toString n
  else if n < 1000 then "0" ++ toString n
  else toString n

/-- ISO `YYYY-MM-DD` rendering: `date.isoformat()` and `strftime(%Y-%m-%d)`. -/
def Date.iso (d : Date) : String :=
  pad4 d.year ++ "-" ++ pad2 d.month ++ "-" ++ pad2 d.day

/-- All-occurrence, non-overlapping, left-to-right substring replacement on
character lists, structurally recursive on a fuel argument (`s.length`
suffices: each step consumes at least one character when the pattern is
nonempty, the only way the source calls it). -/
def replaceAux (pat rep : List Char) : Nat → List Char → List Char
  | _, [] => []
  | 0, s => s
  | fuel + 1, c :: cs =>
    if pat.isPrefixOf (c :: cs) then
      rep ++ replaceAux pat rep fuel ((c :: cs).drop pat.length)
    else
      c :: replaceAux pat rep fuel cs

/-- Python's `str.replace(pat, rep)` for a nonempty pattern. -/
def pyReplace (s pat rep : String) : String :=
  ⟨replaceAux pat.data rep.data s.data.length s.data⟩

/-- Splitting a character list at every occurrence of `c`, as the
separator handling of `strptime` for the `%Y-%m-%d` format. -/
def splitOnChar (c : Char) : List Char → List (List Char)
  | [] => [[]]
  | x :: xs =>
    match splitOnChar c xs with
    | [] => [[]]
    | y :: ys => if x == c then [] :: y :: ys else (x :: y) :: ys

def allDigits (l : List Char) : Bool :=
  l.all Char.isDigit

def digitsToNat (l : List Char) : Nat :=
  l.foldl (fun acc c => acc * 10 + (c.toNat - 48)) 0

/-- Parsing a date string, as `datetime.strptime(s, "%Y-%m-%d").date()`:
a 4-digit year, a 1-2 digit month in 1..12, and a 1-2 digit day that is
valid for that month, separated by hyphens with nothing left over. -/
def parseDate (s : String) : Option Date :=
  match splitOnChar '-' s.data with
  | [ys, ms, ds] =>
    if ys.length == 4 && allDigits ys &&
       0 < ms.length && ms.length ≤ 2 && allDigits ms &&
       0 < ds.length && ds.length ≤ 2 && allDigits ds then
      let y := digitsToNat ys
      let m := digitsToNat ms
      let d := digitsToNat ds
      if 1 ≤ m && m ≤ 12 && 1 ≤ d && d ≤ daysInMonth y m then
        some ⟨y, m, d⟩
      else none
    else none
  | _ => none

/-- Days since an epoch for a civil date: the classical era/year-of-era
computation with truncating integer division, matching
`datetime.date.toordinal` up to a constant shift, so that differences of
dates give exact day counts. -/
def daysFromCivil (y m d : Int) : Int :=
  let y2 := if m ≤ 2 then y - 1 else y
  let era := (if 0 ≤ y2 then y2 else y2 - 399) / 400
  let yoe := y2 - era * 400
  let mp := (m + 9) % 12
  let doy := (153 * mp + 2) / 5 + d - 1
  let doe := yoe * 365 + yoe / 4 - yoe / 100 + doy
  era * 146097 + doe - 719468

def Date.ordinal (d : Date) : Int :=
  daysFromCivil d.year d.month d.day

/-! ### Tags and pricing -/

/-- A resource tag (`{'Key': ..., 'Value': ...}`). -/
structure Tag where
  key : String
  value : String
deriving DecidableEq, Repr

/-- The Reaper's per-resource tag scan (resource_cleanup.py lines 84-93 and
the analogous loops for snapshots and addresses): every tag whose key is
`TAG_KEY` has the prefix stripped (`str.replace`, all occurrences) and is
parsed with `strptime`; a failed parse keeps the previously parsed value. -/
def extractDeadline (tags : List Tag) : Option Date :=
  tags.foldl
    (fun acc tag =>
      if tag.key == TAG_KEY then
        match parseDate (pyReplace tag.value TAG_VALUE_PREFIX "") with
        | some d => some d
        | none => acc
      else acc)
    none

/-- Per-GB monthly price table for ap-south-1 with default 0.10
(cost_analyzer.py lines 92-102, duplicated at resource_cleanup.py 101-106). -/
def price_per_gb (t : String) : ℚ :=
  if t == "gp2" then 0.114
  else if t == "gp3" then 0.091
  else if t == "io1" then 0.143
  else if t == "io2" then 0.143
  else if t == "sc1" then 0.029
  else if t == "st1" then 0.051
  else if t == "standard" then 0.057
  else 0.10

/-- Python's `round(x, 2)` on the modelled rationals. -/
def round2 (x : ℚ) : ℚ :=
  (round (x * 100) : ℤ) / 100

/-- Python's `f"{x:.2f}"` formatting on the modelled rationals. -/
def fmt2 (q : ℚ) : String :=
  let c : Int := round (q * 100)
  let sign := if c < 0 then "-" else ""
  let a := c.natAbs
  sign ++ toString (a / 100) ++ "." ++ pad2 (a % 100)

/-! ### Inventory data (the shapes of the describe responses the code reads) -/

/-- An EBS volume as read from `describe_volumes`:  `attachments` is the
length of the `Attachments` list. -/
structure VolumeInfo where
  volumeId : String
  size : Nat
  volumeType : String
  attachments : Nat
  tags : List Tag
deriving DecidableEq, Repr

/-- A snapshot as read from `describe_snapshots`; `startTime` in seconds. -/
structure SnapshotInfo where
  snapshotId : String
  volumeSize : Nat
  startTime : Int
  tags : List Tag
deriving DecidableEq, Repr

/-- An Elastic IP as read from `describe_addresses`; `associated` models
the presence of the `AssociationId` key. -/
structure AddressInfo where
  allocationId : String
  publicIp : String
  associated : Bool
  tags : List Tag
deriving DecidableEq, Repr

/-- An EC2 instance as read from `describe_instances`;
`blockDeviceVolumeIds` are the `Ebs.VolumeId`s of its block device
mappings. -/
structure InstanceInfo where
  instanceId : String
  state : String
  instanceType : String
  blockDeviceVolumeIds : List String
  tags : List Tag
deriving DecidableEq, Repr

/-! ### Classifier (cost_analyzer.py, Finder half A) -/

/-- A Finder finding.  The source's per-kind dicts carry further
presentation-only fields (`create_time`, `availability_zone`, `tags`,
`description`, `public_ip`, instance metadata); the fields the claims and
the rest of the run read are kept. -/
structure Finding where
  resource_type : String
  resource_id : String
  monthly_cost : ℚ
  size_gb : Nat := 0
  age_days : Int := 0
deriving DecidableEq, Repr

def unattachedFinding (v : VolumeInfo) : Finding :=
  { resource_type := "ebs_volume"
    resource_id := v.volumeId
    monthly_cost := round2 ((v.size : ℚ) * price_per_gb v.volumeType)
    size_gb := v.size }

/-- `find_unattached_volumes` (cost_analyzer.py lines 77-123): one finding
per volume with an empty `Attachments` list, in scan order. -/
def find_unattached_volumes : List VolumeInfo → List Finding
  | [] => []
  | v :: vs =>
    if v.attachments == 0 then unattachedFinding v :: find_unattached_volumes vs
    else find_unattached_volumes vs

def oldSnapshotFinding (now : Int) (s : SnapshotInfo) : Finding :=
  { resource_type := "snapshot"
    resource_id := s.snapshotId
    monthly_cost := round2 ((s.volumeSize : ℚ) * 0.057)
    size_gb := s.volumeSize
    age_days := Int.fdiv (now - s.startTime) 86400 }

/-- `find_old_snapshots` (cost_analyzer.py lines 207-249): a snapshot is a
finding iff its start time is strictly before `now` minus the 90-day
threshold; `age_days` is `timedelta.days`, i.e. the floored day count. -/
def find_old_snapshots (now : Int) : List SnapshotInfo → List Finding
  | [] => []
  | s :: ss =>
    if s.startTime < now - (SNAPSHOT_AGE_THRESHOLD_DAYS : Int) * 86400 then
      oldSnapshotFinding now s :: find_old_snapshots now ss
    else find_old_snapshots now ss

def idleEipFinding (a : AddressInfo) : Finding :=
  { resource_type := "elastic_ip"
    resource_id := a.allocationId
    monthly_cost := round2 (0.005 * 24 * 30) }

/-- `find_idle_elastic_ips` (cost_analyzer.py lines 251-283). -/
def find_idle_elastic_ips : List AddressInfo → List Finding
  | [] => []
  | a :: as_ =>
    if a.associated then find_idle_elastic_ips as_
    else idleEipFinding a :: find_idle_elastic_ips as_

def lookupVolume (vols : List VolumeInfo) (vid : String) : Option VolumeInfo :=
  vols.find? (fun v => v.volumeId == vid)

/-- Summed EBS cost of a stopped instance's mapped volumes
(cost_analyzer.py lines 142-167).  `describe_volumes(VolumeIds=[vid])` is
modelled by `lookupVolume` over the account's volume inventory; an
unresolvable id contributes nothing (in the source it would raise and
empty the whole scan, a case no claim exercises). -/
def stoppedInstanceEbsCost (vols : List VolumeInfo) (i : InstanceInfo) : ℚ :=
  i.blockDeviceVolumeIds.foldl
    (fun acc vid =>
      match lookupVolume vols vid with
      | some v => acc + (v.size : ℚ) * price_per_gb v.volumeType
      | none => acc)
    0

def stoppedInstanceFinding (vols : List VolumeInfo) (i : InstanceInfo) : Finding :=
  { resource_type := "stopped_instance"
    resource_id := i.instanceId
    monthly_cost := round2 (stoppedInstanceEbsCost vols i) }

/-- `find_stopped_instances_with_volumes` (cost_analyzer.py lines
125-205).  The `instance-state-name = stopped` filter of the describe call
is applied here; an instance is a finding only when its summed EBS cost is
positive. -/
def find_stopped_instances_with_volumes (vols : List VolumeInfo) :
    List InstanceInfo → List Finding
  | [] => []
  | i :: is_ =>
    if i.state == "stopped" && decide (0 < stoppedInstanceEbsCost vols i) then
      stoppedInstanceFinding vols i :: find_stopped_instances_with_volumes vols is_
    else find_stopped_instances_with_volumes vols is_

/-! ### Tagger (cost_analyzer.py, Finder half B) -/

structure Findings where
  unattached_volumes : List Finding
  stopped_instances_with_volumes : List Finding
  old_snapshots : List Finding
  idle_elastic_ips : List Finding
  total_waste_monthly : ℚ
deriving DecidableEq, Repr

/-- One `ec2.create_tags` invocation. -/
structure CreateTagsCall where
  resources : List String
  tags : List Tag
deriving DecidableEq, Repr

/-- `tag_resources_for_deletion` (cost_analyzer.py lines 285-328): one
batch call for the unattached volumes and old snapshots (skipped when that
list is empty), then one call per idle Elastic IP, all with the same
deadline value `TAG_VALUE_PREFIX ++ (run date + grace period)`. -/
def tag_resources_for_deletion (runDate : Date) (f : Findings) : List CreateTagsCall :=
  let delete_after_date := runDate.addDays GRACE_PERIOD_DAYS
  let tag_value := TAG_VALUE_PREFIX ++ delete_after_date.iso
  let auditTags : List Tag :=
    [⟨TAG_KEY, tag_value⟩, ⟨"AutomatedBy", "CostAnalyzer"⟩, ⟨"FoundDate", runDate.iso⟩]
  let resources_to_tag :=
    f.unattached_volumes.map (·.resource_id) ++ f.old_snapshots.map (·.resource_id)
  (if resources_to_tag.isEmpty then []
   else [{ resources := resources_to_tag, tags := auditTags }])
  ++ f.idle_elastic_ips.map (fun eip => { resources := [eip.resource_id], tags := auditTags })

/-- All resource ids named by a list of `create_tags` calls. -/
def taggedIds (calls : List CreateTagsCall) : List String :=
  (calls.map (·.resources)).flatten

def sumCosts (fs : List Finding) : ℚ :=
  fs.foldl (fun acc f => acc + f.monthly_cost) 0

/-- Outcome of a Finder run (`cost_analyzer.lambda_handler`):
the findings, the tag calls issued, and the response's findings count. -/
structure AnalyzerOutcome where
  findings : Findings
  tagCalls : List CreateTagsCall
  findingsCount : Nat
deriving DecidableEq, Repr

/-- `cost_analyzer.lambda_handler` (lines 17-75): run the four checks, sum
the waste, tag, report. -/
def analyzerRun (runDate : Date) (now : Int) (vols : List VolumeInfo)
    (insts : List InstanceInfo) (snaps : List SnapshotInfo)
    (addrs : List AddressInfo) : AnalyzerOutcome :=
  let unattached := find_unattached_volumes vols
  let stopped := find_stopped_instances_with_volumes vols insts
  let olds := find_old_snapshots now snaps
  let eips := find_idle_elastic_ips addrs
  let total := sumCosts unattached + sumCosts stopped + sumCosts olds + sumCosts eips
  let findings : Findings := ⟨unattached, stopped, olds, eips, total⟩
  { findings := findings
    tagCalls := tag_resources_for_deletion runDate findings
    findingsCount := unattached.length + stopped.length + olds.length + eips.length }

/-! ### Reaper (resource_cleanup.py) -/

/-- The fallible mutating EC2 operations the Reaper calls.
`createSnapshot` returns the new snapshot id on success. -/
structure Ec2Env where
  createSnapshot : String → Except String String
  deleteVolume : String → Except String Unit
  deleteSnapshot : String → Except String Unit
  releaseAddress : String → Except String Unit

/-- A mutating EC2 call issued by the Reaper (a call appears in the trace
whether or not the environment reports it as succeeding). -/
inductive AwsCall where
  | createSnapshot (volumeId : String)
  | deleteVolume (volumeId : String)
  | deleteSnapshot (snapshotId : String)
  | releaseAddress (allocationId : String)
deriving DecidableEq, Repr

/-- Entry of `results['volumes_deleted']`. -/
structure DeletedVolume where
  volume_id : String
  size_gb : Nat
  volume_type : String
  monthly_savings : ℚ
  snapshot_id : String
  deleted_date : String
deriving DecidableEq, Repr

/-- Entry of `results['snapshots_deleted']`. -/
structure DeletedSnapshot where
  snapshot_id : String
  size_gb : Nat
  monthly_savings : ℚ
  deleted_date : String
deriving DecidableEq, Repr

/-- Entry of `results['eips_released']`. -/
structure ReleasedEip where
  allocation_id : String
  public_ip : String
  monthly_savings : ℚ
  released_date : String
deriving DecidableEq, Repr

/-- Entry of `results['volumes_skipped']` / `results['snapshots_skipped']`. -/
structure SkipRecord where
  resource_id : String
  reason : String
deriving DecidableEq, Repr

/-- The Reaper's accumulated `cleanup_results` dict. -/
structure CleanupResults where
  volumes_deleted : List DeletedVolume
  snapshots_deleted : List DeletedSnapshot
  eips_released : List ReleasedEip
  volumes_skipped : List SkipRecord
  snapshots_skipped : List SkipRecord
  total_savings_monthly : ℚ
deriving DecidableEq, Repr

def emptyResults : CleanupResults :=
  ⟨[], [], [], [], [], 0⟩

/-- Body of the per-volume loop of `cleanup_expired_volumes`
(resource_cleanup.py lines 78-172): parse the deadline tag; when expired,
re-check attachment (skip `attached_to_instance`); otherwise, unless in
dry run, create the safety snapshot (on failure skip
`snapshot_failed: ...` without deleting) and only then delete the volume
(on failure skip `deletion_failed: ...`); a successful delete appends one
deleted record dated today and adds the unrounded monthly cost to the
savings total. -/
def processVolume (dryRun : Bool) (env : Ec2Env) (today : Date)
    (r : CleanupResults) (v : VolumeInfo) : CleanupResults × List AwsCall :=
  match extractDeadline v.tags with
  | none => (r, [])
  | some dlt =>
    if Date.le dlt today then
      let monthly_cost := (v.size : ℚ) * price_per_gb v.volumeType
      if 0 < v.attachments then
        ({ r with volumes_skipped :=
              r.volumes_skipped ++ [⟨v.volumeId, "attached_to_instance"⟩] }, [])
      else if dryRun then (r, [])
      else
        match env.createSnapshot v.volumeId with
        | .error e =>
          ({ r with volumes_skipped :=
                r.volumes_skipped ++ [⟨v.volumeId, "snapshot_failed: " ++ e⟩] },
           [.createSnapshot v.volumeId])
        | .ok snapshot_id =>
          match env.deleteVolume v.volumeId with
          | .ok _ =>
            ({ r with
                volumes_deleted := r.volumes_deleted ++
                  [⟨v.volumeId, v.size, v.volumeType, monthly_cost, snapshot_id, today.iso⟩]
                total_savings_monthly := r.total_savings_monthly + monthly_cost },
             [.createSnapshot v.volumeId, .deleteVolume v.volumeId])
          | .error e =>
            ({ r with volumes_skipped :=
                  r.volumes_skipped ++ [⟨v.volumeId, "deletion_failed: " ++ e⟩] },
             [.createSnapshot v.volumeId, .deleteVolume v.volumeId])
    else (r, [])

/-- `cleanup_expired_volumes` (resource_cleanup.py lines 62-180) over the
tag-filtered describe response, threading the results dict and collecting
the issued calls in order. -/
def cleanup_expired_volumes (dryRun : Bool) (env : Ec2Env) (today : Date) :
    List VolumeInfo → CleanupResults → CleanupResults × List AwsCall
  | [], r => (r, [])
  | v :: vs, r =>
    let step := processVolume dryRun env today r v
    let rest := cleanup_expired_volumes dryRun env today vs step.1
    (rest.1, step.2 ++ rest.2)

/-- Body of the per-snapshot loop of `cleanup_expired_snapshots`
(resource_cleanup.py lines 198-238): no safety step; a failed delete is
skipped with the raw error string as reason. -/
def processSnapshot (dryRun : Bool) (env : Ec2Env) (today : Date)
    (r : CleanupResults) (s : SnapshotInfo) : CleanupResults × List AwsCall :=
  match extractDeadline s.tags with
  | none => (r, [])
  | some dlt =>
    if Date.le dlt today then
      let monthly_cost := (s.volumeSize : ℚ) * 0.057
      if dryRun then (r, [])
      else
        match env.deleteSnapshot s.snapshotId with
        | .ok _ =>
          ({ r with
              snapshots_deleted := r.snapshots_deleted ++
                [⟨s.snapshotId, s.volumeSize, monthly_cost, today.iso⟩]
              total_savings_monthly := r.total_savings_monthly + monthly_cost },
           [.deleteSnapshot s.snapshotId])
        | .error e =>
          ({ r with snapshots_skipped := r.snapshots_skipped ++ [⟨s.snapshotId, e⟩] },
           [.deleteSnapshot s.snapshotId])
    else (r, [])

/-- `cleanup_expired_snapshots` (resource_cleanup.py lines 182-245). -/
def cleanup_expired_snapshots (dryRun : Bool) (env : Ec2Env) (today : Date) :
    List SnapshotInfo → CleanupResults → CleanupResults × List AwsCall
  | [], r => (r, [])
  | s :: ss, r =>
    let step := processSnapshot dryRun env today r s
    let rest := cleanup_expired_snapshots dryRun env today ss step.1
    (rest.1, step.2 ++ rest.2)

/-- Body of the per-address loop of `cleanup_expired_eips`
(resource_cleanup.py lines 262-303): a re-associated address is skipped
with only a log line (no skip record exists for addresses), and a failed
release is likewise only logged. -/
def processAddress (dryRun : Bool) (env : Ec2Env) (today : Date)
    (r : CleanupResults) (a : AddressInfo) : CleanupResults × List AwsCall :=
  match extractDeadline a.tags with
  | none => (r, [])
  | some dlt =>
    if Date.le dlt today then
      if a.associated then (r, [])
      else
        let monthly_cost : ℚ := 0.005 * 24 * 30
        if dryRun then (r, [])
        else
          match env.releaseAddress a.allocationId with
          | .ok _ =>
            ({ r with
                eips_released := r.eips_released ++
                  [⟨a.allocationId, a.publicIp, monthly_cost, today.iso⟩]
                total_savings_monthly := r.total_savings_monthly + monthly_cost },
             [.releaseAddress a.allocationId])
          | .error _ => (r, [.releaseAddress a.allocationId])
    else (r, [])

/-- `cleanup_expired_eips` (resource_cleanup.py lines 247-310). -/
def cleanup_expired_eips (dryRun : Bool) (env : Ec2Env) (today : Date) :
    List AddressInfo → CleanupResults → CleanupResults × List AwsCall
  | [], r => (r, [])
  | a :: as_, r =>
    let step := processAddress dryRun env today r a
    let rest := cleanup_expired_eips dryRun env today as_ step.1
    (rest.1, step.2 ++ rest.2)

/-- A DynamoDB `CostOptimizationLog` item.  The source also stores
kind-specific metadata (`size_gb`, `volume_type`, `snapshot_id`,
`public_ip`) and serialises `monthly_savings` through `str`; the fields
read back by the aggregator and the claims are kept, the savings as the
modelled rational. -/
structure LedgerItem where
  deletion_id : String
  deleted_date : String
  resource_type : String
  resource_id : String
  monthly_savings : ℚ
deriving DecidableEq, Repr

/-- `log_deletions_to_dynamodb` (resource_cleanup.py lines 312-362): one
`put_item` per deleted volume, deleted snapshot and released address, in
that order, keyed `volume-`/`snapshot-`/`eip-` + id + `-` + date.  The
ledger store is assumed to accept every write (a write failure in the
source is caught and only logged). -/
def log_deletions_to_dynamodb (r : CleanupResults) : List LedgerItem :=
  r.volumes_deleted.map (fun v =>
    { deletion_id := "volume-" ++ v.volume_id ++ "-" ++ v.deleted_date
      deleted_date := v.deleted_date
      resource_type := "ebs_volume"
      resource_id := v.volume_id
      monthly_savings := v.monthly_savings })
  ++ r.snapshots_deleted.map (fun s =>
    { deletion_id := "snapshot-" ++ s.snapshot_id ++ "-" ++ s.deleted_date
      deleted_date := s.deleted_date
      resource_type := "snapshot"
      resource_id := s.snapshot_id
      monthly_savings := s.monthly_savings })
  ++ r.eips_released.map (fun e =>
    { deletion_id := "eip-" ++ e.allocation_id ++ "-" ++ e.released_date
      deleted_date := e.released_date
      resource_type := "elastic_ip"
      resource_id := e.allocation_id
      monthly_savings := e.monthly_savings })

/-- The SMS body built by `send_cleanup_report` (resource_cleanup.py lines
365-413). -/
def cleanupMessage (r : CleanupResults) : String :=
  let total_deleted :=
    r.volumes_deleted.length + r.snapshots_deleted.length + r.eips_released.length
  if total_deleted == 0 then
    "AWS Cleanup: No expired resources found. All tagged resources still in grace period."
  else
    let ts := r.total_savings_monthly
    let m0 := "AWS Cleanup: Deleted " ++ toString total_deleted ++ " expired resources. "
            ++ "Savings: $" ++ fmt2 ts ++ "/mo ($" ++ fmt2 (ts * 12) ++ "/yr). "
    let m1 := if r.volumes_deleted.isEmpty then m0
              else m0 ++ toString r.volumes_deleted.length ++ " volumes. "
    let m2 := if r.snapshots_deleted.isEmpty then m1
              else m1 ++ toString r.snapshots_deleted.length ++ " snapshots. "
    let m3 := if r.eips_released.isEmpty then m2
              else m2 ++ toString r.eips_released.length ++ " IPs. "
    m3 ++ "Safety snapshots created. Check CloudWatch for details."

/-- Outcome of a Reaper run: the results dict, the ordered trace of
mutating EC2 calls, the ledger items written, and the report body. -/
structure ReaperOutcome where
  results : CleanupResults
  calls : List AwsCall
  ledger : List LedgerItem
  message : String
deriving DecidableEq, Repr

/-- `resource_cleanup.lambda_handler` (lines 18-60): clean volumes, then
snapshots, then addresses, log the deletions, send the report. -/
def reaperRun (dryRun : Bool) (env : Ec2Env) (today : Date)
    (vols : List VolumeInfo) (snaps : List SnapshotInfo)
    (addrs : List AddressInfo) : ReaperOutcome :=
  let sv := cleanup_expired_volumes dryRun env today vols emptyResults
  let ss := cleanup_expired_snapshots dryRun env today snaps sv.1
  let se := cleanup_expired_eips dryRun env today addrs ss.1
  { results := se.1
    calls := sv.2 ++ ss.2 ++ se.2
    ledger := log_deletions_to_dynamodb se.1
    message := cleanupMessage se.1 }

/-- Whether a scanned volume has an expired deadline but is attached again:
exactly the volumes the Reaper records as skipped even in dry run. -/
def expiredAttached (today : Date) (v : VolumeInfo) : Bool :=
  (match extractDeadline v.tags with
   | some d => Date.le d today
   | none => false) && decide (0 < v.attachments)

/-! ### Ledger aggregator (cost_savings_query.py) -/

/-- The aggregator's result dict (cost_savings_query.py lines 49-58);
the `resource_breakdown` sub-dict becomes the three count fields. -/
structure SavingsSummary where
  total_resources_deleted : Nat
  total_monthly_savings : ℚ
  total_annual_savings : ℚ
  count_ebs_volume : Nat
  count_snapshot : Nat
  count_elastic_ip : Nat
  first_deletion_date : String
  last_deletion_date : String
  days_operating : Int
  average_savings_per_day : ℚ
deriving DecidableEq, Repr

/-- The running sum of `monthly_savings` over the scanned items
(cost_savings_query.py lines 19-28). -/
def savingsTotal (items : List LedgerItem) : ℚ :=
  items.foldl (fun acc i => acc + i.monthly_savings) 0

def countType (items : List LedgerItem) (t : String) : Nat :=
  (items.filter (fun i => i.resource_type == t)).length

/-- Strict lexicographic order on character lists by code point, Python's
string comparison. -/
def charListLt : List Char → List Char → Bool
  | [], [] => false
  | [], _ :: _ => true
  | _ :: _, [] => false
  | c :: cs, d :: ds =>
    if c < d then true else if d < c then false else charListLt cs ds

def strLt (a b : String) : Bool :=
  charListLt a.data b.data

/-- Python's binary `min` on strings (ties keep the left argument). -/
def pyMin (a b : String) : String :=
  if strLt b a then b else a

/-- Python's binary `max` on strings (ties keep the left argument). -/
def pyMax (a b : String) : String :=
  if strLt a b then b else a

/-- The date-range computation of `cost_savings_query.lambda_handler`
(lines 35-47): on a nonempty scan, the lexicographic `min`/`max` of the
`deleted_date` strings and `(last - first).days + 1`; a `strptime` failure
on an extremal date is the `ValueError` the outer handler turns into a
500, modelled as `Except.error`. -/
def firstLastDaysOf (items : List LedgerItem) : Except String (String × String × Int) :=
  match items with
  | [] => .ok ("N/A", "N/A", 0)
  | i :: rest =>
    let first := rest.foldl (fun m j => pyMin m j.deleted_date) i.deleted_date
    let last := rest.foldl (fun m j => pyMax m j.deleted_date) i.deleted_date
    match parseDate first, parseDate last with
    | some fd, some ld => .ok (first, last, ld.ordinal - fd.ordinal + 1)
    | _, _ => .error "ValueError"

/-- `cost_savings_query.lambda_handler` (lines 9-72) on the scanned ledger
items. -/
def savingsQuery (items : List LedgerItem) : Except String SavingsSummary :=
  let total := savingsTotal items
  match firstLastDaysOf items with
  | .error e => .error e
  | .ok (first, last, days) =>
    .ok
      { total_resources_deleted := items.length
        total_monthly_savings := round2 total
        total_annual_savings := round2 (total * 12)
        count_ebs_volume := countType items "ebs_volume"
        count_snapshot := countType items "snapshot"
        count_elastic_ip := countType items "elastic_ip"
        first_deletion_date := first
        last_deletion_date := last
        days_operating := days
        average_savings_per_day := if 0 < total then round2 (total / 30) else 0 }

/-! ### Case analysis of the Reaper's per-item steps -/

theorem processVolume_cases (env : Ec2Env) (today : Date) (r : CleanupResults)
    (v : VolumeInfo) :
    processVolume false env today r v = (r, []) ∨
    processVolume false env today r v =
      ({ r with volumes_skipped :=
            r.volumes_skipped ++ [⟨v.volumeId, "attached_to_instance"⟩] }, []) ∨
    (∃ e, env.createSnapshot v.volumeId = .error e ∧
      processVolume false env today r v =
        ({ r with volumes_skipped :=
              r.volumes_skipped ++ [⟨v.volumeId, "snapshot_failed: " ++ e⟩] },
         [.createSnapshot v.volumeId])) ∨
    (∃ sid, env.createSnapshot v.volumeId = .ok sid ∧
      processVolume false env today r v =
        ({ r with
            volumes_deleted := r.volumes_deleted ++
              [⟨v.volumeId, v.size, v.volumeType,
                (v.size : ℚ) * price_per_gb v.volumeType, sid, today.iso⟩]
            total_savings_monthly := r.total_savings_monthly +
              (v.size : ℚ) * price_per_gb v.volumeType },
         [.createSnapshot v.volumeId, .deleteVolume v.volumeId])) ∨
    (∃ sid e, env.createSnapshot v.volumeId = .ok sid ∧
      env.deleteVolume v.volumeId = .error e ∧
      processVolume false env today r v =
        ({ r with volumes_skipped :=
              r.volumes_skipped ++ [⟨v.volumeId, "deletion_failed: " ++ e⟩] },
         [.createSnapshot v.volumeId, .deleteVolume v.volumeId])) := by
  unfold processVolume
  split
  · exact Or.inl rfl
  · split
    · split
      · exact Or.inr (Or.inl rfl)
      · split
        · simp_all
        · split
          next e heq =>
            exact Or.inr (Or.inr (Or.inl ⟨e, heq, rfl⟩))
          next sid heq =>
            split
            next heq2 =>
              exact Or.inr (Or.inr (Or.inr (Or.inl ⟨sid, heq, rfl⟩)))
            next e heq2 =>
              exact Or.inr (Or.inr (Or.inr (Or.inr ⟨sid, e, heq, heq2, rfl⟩)))
    · exact Or.inl rfl

theorem processSnapshot_cases (env : Ec2Env) (today : Date) (r : CleanupResults)
    (s : SnapshotInfo) :
    processSnapshot false env today r s = (r, []) ∨
    (∃ _u : Unit, env.deleteSnapshot s.snapshotId = .ok () ∧
      processSnapshot false env today r s =
        ({ r with
            snapshots_deleted := r.snapshots_deleted ++
              [⟨s.snapshotId, s.volumeSize, (s.volumeSize : ℚ) * 0.057, today.iso⟩]
            total_savings_monthly := r.total_savings_monthly +
              (s.volumeSize : ℚ) * 0.057 },
         [.deleteSnapshot s.snapshotId])) ∨
    (∃ e, env.deleteSnapshot s.snapshotId = .error e ∧
      processSnapshot false env today r s =
        ({ r with snapshots_skipped := r.snapshots_skipped ++ [⟨s.snapshotId, e⟩] },
         [.deleteSnapshot s.snapshotId])) := by
  unfold processSnapshot
  split
  · exact Or.inl rfl
  · split
    · split
      · simp_all
      · split
        next u heq =>
          exact Or.inr (Or.inl ⟨(), by simpa using heq, rfl⟩)
        next e heq =>
          exact Or.inr (Or.inr ⟨e, heq, rfl⟩)
    · exact Or.inl rfl

theorem processAddress_cases (env : Ec2Env) (today : Date) (r : CleanupResults)
    (a : AddressInfo) :
    processAddress false env today r a = (r, []) ∨
    processAddress false env today r a = (r, [.releaseAddress a.allocationId]) ∨
    (∃ _u : Unit, env.releaseAddress a.allocationId = .ok () ∧
      processAddress false env today r a =
        ({ r with
            eips_released := r.eips_released ++
              [⟨a.allocationId, a.publicIp, 0.005 * 24 * 30, today.iso⟩]
            total_savings_monthly := r.total_savings_monthly + 0.005 * 24 * 30 },
         [.releaseAddress a.allocationId])) := by
  unfold processAddress
  split
  · exact Or.inl rfl
  · split
    · split
      · exact Or.inl rfl
      · split
        · simp_all
        · split
          next u heq =>
            exact Or.inr (Or.inr ⟨(), by simpa using heq, rfl⟩)
          next e heq =>
            exact Or.inr (Or.inl rfl)
    · exact Or.inl rfl

theorem processVolume_attached (dryRun : Bool) (env : Ec2Env) (today : Date)
    (r : CleanupResults) (v : VolumeInfo) (d : Date)
    (hd : extractDeadline v.tags = some d) (hexp : Date.le d today = true)
    (hatt : 0 < v.attachments) :
    processVolume dryRun env today r v =
      ({ r with volumes_skipped :=
            r.volumes_skipped ++ [⟨v.volumeId, "attached_to_instance"⟩] }, []) := by
  unfold processVolume
  rw [hd]
  simp [hexp, hatt]

theorem processVolume_snapshot_failed (env : Ec2Env) (today : Date)
    (r : CleanupResults) (v : VolumeInfo) (d : Date) (e : String)
    (hd : extractDeadline v.tags = some d) (hexp : Date.le d today = true)
    (hatt : v.attachments = 0) (hsnap : env.createSnapshot v.volumeId = .error e) :
    processVolume false env today r v =
      ({ r with volumes_skipped :=
            r.volumes_skipped ++ [⟨v.volumeId, "snapshot_failed: " ++ e⟩] },
       [.createSnapshot v.volumeId]) := by
  unfold processVolume
  rw [hd]
  simp [hexp, hatt, hsnap]

theorem processAddress_associated (dryRun : Bool) (env : Ec2Env) (today : Date)
    (r : CleanupResults) (a : AddressInfo) (d : Date)
    (hd : extractDeadline a.tags = some d) (hexp : Date.le d today = true)
    (hassoc : a.associated = true) :
    processAddress dryRun env today r a = (r, []) := by
  unfold processAddress
  rw [hd]
  simp [hexp, hassoc]

/-! ### Dry-run behaviour of the per-item steps -/

theorem processVolume_dryRun (env : Ec2Env) (today : Date) (r : CleanupResults)
    (v : VolumeInfo) :
    processVolume true env today r v =
      ({ r with volumes_skipped := r.volumes_skipped ++
            (if expiredAttached today v then [⟨v.volumeId, "attached_to_instance"⟩] else []) },
       []) := by
  unfold processVolume expiredAttached
  rcases hd : extractDeadline v.tags with _ | d
  · simp
  · rcases hexp : Date.le d today with _ | _
    · simp [hexp]
    · by_cases hatt : 0 < v.attachments
      · simp [hexp, hatt]
      · simp [hexp, hatt]

theorem processSnapshot_dryRun (env : Ec2Env) (today : Date) (r : CleanupResults)
    (s : SnapshotInfo) :
    processSnapshot true env today r s = (r, []) := by
  unfold processSnapshot
  rcases hd : extractDeadline s.tags with _ | d
  · rfl
  · rcases hexp : Date.le d today with _ | _ <;> simp

theorem processAddress_dryRun (env : Ec2Env) (today : Date) (r : CleanupResults)
    (a : AddressInfo) :
    processAddress true env today r a = (r, []) := by
  unfold processAddress
  rcases hd : extractDeadline a.tags with _ | d
  · rfl
  · rcases hexp : Date.le d today with _ | _
    · simp
    · rcases hassoc : a.associated with _ | _ <;> simp

/-! ### Fields each per-item step leaves unchanged -/

theorem processVolume_other_fields (env : Ec2Env) (today : Date)
    (r : CleanupResults) (v : VolumeInfo) :
    (processVolume false env today r v).1.snapshots_deleted = r.snapshots_deleted ∧
    (processVolume false env today r v).1.eips_released = r.eips_released ∧
    (processVolume false env today r v).1.snapshots_skipped = r.snapshots_skipped := by
  rcases processVolume_cases env today r v with h | h | ⟨e, _, h⟩ | ⟨sid, _, h⟩ |
    ⟨sid, e, _, _, h⟩ <;> rw [h] <;> exact ⟨rfl, rfl, rfl⟩

theorem processSnapshot_other_fields (env : Ec2Env) (today : Date)
    (r : CleanupResults) (s : SnapshotInfo) :
    (processSnapshot false env today r s).1.volumes_deleted = r.volumes_deleted ∧
    (processSnapshot false env today r s).1.eips_released = r.eips_released ∧
    (processSnapshot false env today r s).1.volumes_skipped = r.volumes_skipped := by
  rcases processSnapshot_cases env today r s with h | ⟨_, _, h⟩ | ⟨e, _, h⟩ <;> rw [h] <;>
    exact ⟨rfl, rfl, rfl⟩

theorem processAddress_other_fields (env : Ec2Env) (today : Date)
    (r : CleanupResults) (a : AddressInfo) :
    (processAddress false env today r a).1.volumes_deleted = r.volumes_deleted ∧
    (processAddress false env today r a).1.snapshots_deleted = r.snapshots_deleted ∧
    (processAddress false env today r a).1.volumes_skipped = r.volumes_skipped ∧
    (processAddress false env today r a).1.snapshots_skipped = r.snapshots_skipped := by
  rcases processAddress_cases env today r a with h | h | ⟨_, _, h⟩ <;> rw [h] <;>
    exact ⟨rfl, rfl, rfl, rfl⟩

theorem processVolume_skipped_grows (env : Ec2Env) (today : Date)
    (r : CleanupResults) (v : VolumeInfo) :
    ∃ extra, (processVolume false env today r v).1.volumes_skipped =
      r.volumes_skipped ++ extra := by
  rcases processVolume_cases env today r v with h | h | ⟨e, _, h⟩ | ⟨sid, _, h⟩ |
    ⟨sid, e, _, _, h⟩ <;> rw [h]
  · exact ⟨[], (List.append_nil _).symm⟩
  · exact ⟨_, rfl⟩
  · exact ⟨_, rfl⟩
  · exact ⟨[], (List.append_nil _).symm⟩
  · exact ⟨_, rfl⟩

/-! ### Lemmas about the per-kind cleanup folds -/

theorem cleanup_volumes_cons (dryRun : Bool) (env : Ec2Env) (t : Date)
    (v : VolumeInfo) (vs : List VolumeInfo) (r : CleanupResults) :
    cleanup_expired_volumes dryRun env t (v :: vs) r =
      ((cleanup_expired_volumes dryRun env t vs (processVolume dryRun env t r v).1).1,
       (processVolume dryRun env t r v).2 ++
         (cleanup_expired_volumes dryRun env t vs (processVolume dryRun env t r v).1).2) := rfl

theorem cleanup_snapshots_cons (dryRun : Bool) (env : Ec2Env) (t : Date)
    (s : SnapshotInfo) (ss : List SnapshotInfo) (r : CleanupResults) :
    cleanup_expired_snapshots dryRun env t (s :: ss) r =
      ((cleanup_expired_snapshots dryRun env t ss (processSnapshot dryRun env t r s).1).1,
       (processSnapshot dryRun env t r s).2 ++
         (cleanup_expired_snapshots dryRun env t ss (processSnapshot dryRun env t r s).1).2) := rfl

theorem cleanup_eips_cons (dryRun : Bool) (env : Ec2Env) (t : Date)
    (a : AddressInfo) (as_ : List AddressInfo) (r : CleanupResults) :
    cleanup_expired_eips dryRun env t (a :: as_) r =
      ((cleanup_expired_eips dryRun env t as_ (processAddress dryRun env t r a).1).1,
       (processAddress dryRun env t r a).2 ++
         (cleanup_expired_eips dryRun env t as_ (processAddress dryRun env t r a).1).2) := rfl

theorem cleanup_volumes_skipped_superset (env : Ec2Env) (t : Date)
    (vols : List VolumeInfo) (r : CleanupResults) (s : SkipRecord)
    (h : s ∈ r.volumes_skipped) :
    s ∈ (cleanup_expired_volumes false env t vols r).1.volumes_skipped := by
  induction vols generalizing r with
  | nil => exact h
  | cons v vs ih =>
    rw [cleanup_volumes_cons]
    apply ih
    obtain ⟨extra, hx⟩ := processVolume_skipped_grows env t r v
    rw [hx]
    exact List.mem_append_left _ h

theorem cleanup_volumes_calls_mem (env : Ec2Env) (t : Date)
    (vols : List VolumeInfo) (r : CleanupResults) (c : AwsCall)
    (h : c ∈ (cleanup_expired_volumes false env t vols r).2) :
    ∃ v ∈ vols, c = .createSnapshot v.volumeId ∨
      (c = .deleteVolume v.volumeId ∧
        ∃ sid, env.createSnapshot v.volumeId = .ok sid) := by
  induction vols generalizing r with
  | nil => simp [cleanup_expired_volumes] at h
  | cons v vs ih =>
    rw [cleanup_volumes_cons] at h
    rcases List.mem_append.1 h with h1 | h2
    · refine ⟨v, List.mem_cons_self v vs, ?_⟩
      rcases processVolume_cases env t r v with hh | hh | ⟨e, he, hh⟩ | ⟨sid, hs, hh⟩ |
        ⟨sid, e, hs, hdv, hh⟩ <;> rw [hh] at h1
      · simp at h1
      · simp at h1
      · simp at h1
        exact Or.inl h1
      · rcases List.mem_pair.1 h1 with rfl | rfl
        · exact Or.inl rfl
        · exact Or.inr ⟨rfl, sid, hs⟩
      · rcases List.mem_pair.1 h1 with rfl | rfl
        · exact Or.inl rfl
        · exact Or.inr ⟨rfl, sid, hs⟩
    · obtain ⟨w, hw, hc⟩ := ih _ h2
      exact ⟨w, List.mem_cons_of_mem v hw, hc⟩

theorem cleanup_volumes_deleted_mem (env : Ec2Env) (t : Date)
    (vols : List VolumeInfo) (r : CleanupResults) (dv : DeletedVolume)
    (h : dv ∈ (cleanup_expired_volumes false env t vols r).1.volumes_deleted) :
    dv ∈ r.volumes_deleted ∨
      ∃ v ∈ vols, ∃ sid, env.createSnapshot v.volumeId = .ok sid ∧
        dv.volume_id = v.volumeId ∧ dv.deleted_date = t.iso := by
  induction vols generalizing r with
  | nil => exact Or.inl h
  | cons v vs ih =>
    rw [cleanup_volumes_cons] at h
    rcases ih _ h with h1 | ⟨w, hw, rest⟩
    · rcases processVolume_cases env t r v with hh | hh | ⟨e, he, hh⟩ | ⟨sid, hs, hh⟩ |
        ⟨sid, e, hs, hdv, hh⟩ <;> rw [hh] at h1
      · exact Or.inl h1
      · exact Or.inl h1
      · exact Or.inl h1
      · rcases List.mem_append.1 h1 with h3 | h3
        · exact Or.inl h3
        · rcases List.mem_singleton.1 h3 with rfl
          exact Or.inr ⟨v, List.mem_cons_self v vs, sid, hs, rfl, rfl⟩
      · exact Or.inl h1
    · exact Or.inr ⟨w, List.mem_cons_of_mem v hw, rest⟩

theorem cleanup_volumes_other_fields (env : Ec2Env) (t : Date)
    (vols : List VolumeInfo) (r : CleanupResults) :
    (cleanup_expired_volumes false env t vols r).1.snapshots_deleted = r.snapshots_deleted ∧
    (cleanup_expired_volumes false env t vols r).1.eips_released = r.eips_released := by
  induction vols generalizing r with
  | nil => exact ⟨rfl, rfl⟩
  | cons v vs ih =>
    rw [cleanup_volumes_cons]
    obtain ⟨h1, h2, -⟩ := processVolume_other_fields env t r v
    obtain ⟨i1, i2⟩ := ih (processVolume false env t r v).1
    exact ⟨i1.trans h1, i2.trans h2⟩

theorem cleanup_snapshots_other_fields (env : Ec2Env) (t : Date)
    (snaps : List SnapshotInfo) (r : CleanupResults) :
    (cleanup_expired_snapshots false env t snaps r).1.volumes_deleted = r.volumes_deleted ∧
    (cleanup_expired_snapshots false env t snaps r).1.eips_released = r.eips_released := by
  induction snaps generalizing r with
  | nil => exact ⟨rfl, rfl⟩
  | cons s ss ih =>
    rw [cleanup_snapshots_cons]
    obtain ⟨h1, h2, -⟩ := processSnapshot_other_fields env t r s
    obtain ⟨i1, i2⟩ := ih (processSnapshot false env t r s).1
    exact ⟨i1.trans h1, i2.trans h2⟩

theorem cleanup_eips_other_fields (env : Ec2Env) (t : Date)
    (addrs : List AddressInfo) (r : CleanupResults) :
    (cleanup_expired_eips false env t addrs r).1.volumes_deleted = r.volumes_deleted ∧
    (cleanup_expired_eips false env t addrs r).1.snapshots_deleted = r.snapshots_deleted := by
  induction addrs generalizing r with
  | nil => exact ⟨rfl, rfl⟩
  | cons a as_ ih =>
    rw [cleanup_eips_cons]
    obtain ⟨h1, h2, -⟩ := processAddress_other_fields env t r a
    obtain ⟨i1, i2⟩ := ih (processAddress false env t r a).1
    exact ⟨i1.trans h1, i2.trans h2⟩

theorem cleanup_snapshots_deleted_mem (env : Ec2Env) (t : Date)
    (snaps : List SnapshotInfo) (r : CleanupResults) (ds : DeletedSnapshot)
    (h : ds ∈ (cleanup_expired_snapshots false env t snaps r).1.snapshots_deleted) :
    ds ∈ r.snapshots_deleted ∨ ds.deleted_date = t.iso := by
  induction snaps generalizing r with
  | nil => exact Or.inl h
  | cons s ss ih =>
    rw [cleanup_snapshots_cons] at h
    rcases ih _ h with h1 | h1
    · rcases processSnapshot_cases env t r s with hh | ⟨_, _, hh⟩ | ⟨e, _, hh⟩ <;>
        rw [hh] at h1
      · exact Or.inl h1
      · rcases List.mem_append.1 h1 with h3 | h3
        · exact Or.inl h3
        · rcases List.mem_singleton.1 h3 with rfl
          exact Or.inr rfl
      · exact Or.inl h1
    · exact Or.inr h1

theorem cleanup_eips_released_mem (env : Ec2Env) (t : Date)
    (addrs : List AddressInfo) (r : CleanupResults) (re : ReleasedEip)
    (h : re ∈ (cleanup_expired_eips false env t addrs r).1.eips_released) :
    re ∈ r.eips_released ∨ re.released_date = t.iso := by
  induction addrs generalizing r with
  | nil => exact Or.inl h
  | cons a as_ ih =>
    rw [cleanup_eips_cons] at h
    rcases ih _ h with h1 | h1
    · rcases processAddress_cases env t r a with hh | hh | ⟨_, _, hh⟩ <;> rw [hh] at h1
      · exact Or.inl h1
      · exact Or.inl h1
      · rcases List.mem_append.1 h1 with h3 | h3
        · exact Or.inl h3
        · rcases List.mem_singleton.1 h3 with rfl
          exact Or.inr rfl
    · exact Or.inr h1

theorem cleanup_volumes_skip_snapshot_failed (env : Ec2Env) (t : Date)
    (vols : List VolumeInfo) (r : CleanupResults) (v : VolumeInfo) (d : Date)
    (e : String) (hv : v ∈ vols) (hd : extractDeadline v.tags = some d)
    (hexp : Date.le d t = true) (hatt : v.attachments = 0)
    (hsnap : env.createSnapshot v.volumeId = .error e) :
    (⟨v.volumeId, "snapshot_failed: " ++ e⟩ : SkipRecord) ∈
      (cleanup_expired_volumes false env t vols r).1.volumes_skipped := by
  induction vols generalizing r with
  | nil => cases hv
  | cons w ws ih =>
    rw [cleanup_volumes_cons]
    rcases List.mem_cons.1 hv with rfl | hmem
    · apply cleanup_volumes_skipped_superset
      rw [processVolume_snapshot_failed env t r v d e hd hexp hatt hsnap]
      simp
    · exact ih _ hmem

theorem cleanup_volumes_dryRun (env : Ec2Env) (t : Date) (vols : List VolumeInfo)
    (r : CleanupResults) :
    cleanup_expired_volumes true env t vols r =
      ({ r with volumes_skipped := (r.volumes_skipped ++
          (vols.filter (expiredAttached t)).map
            (fun v => ⟨v.volumeId, "attached_to_instance"⟩)) }, []) := by
  induction vols generalizing r with
  | nil => simp [cleanup_expired_volumes]
  | cons v vs ih =>
    rw [cleanup_volumes_cons, processVolume_dryRun]
    by_cases h : expiredAttached t v
    · simp only [h, if_true, List.filter_cons, List.map_cons, ih]
      simp
    · simp only [h, if_false, Bool.false_eq_true, List.filter_cons, ih]
      simp [h]

theorem cleanup_snapshots_dryRun (env : Ec2Env) (t : Date)
    (snaps : List SnapshotInfo) (r : CleanupResults) :
    cleanup_expired_snapshots true env t snaps r = (r, []) := by
  induction snaps generalizing r with
  | nil => rfl
  | cons s ss ih =>
    rw [cleanup_snapshots_cons, processSnapshot_dryRun]
    simp [ih]

theorem cleanup_eips_dryRun (env : Ec2Env) (t : Date)
    (addrs : List AddressInfo) (r : CleanupResults) :
    cleanup_expired_eips true env t addrs r = (r, []) := by
  induction addrs generalizing r with
  | nil => rfl
  | cons a as_ ih =>
    rw [cleanup_eips_cons, processAddress_dryRun]
    simp [ih]

/-! ### Claim C1 -/

/-- C1: for every tagged volume whose deadline has expired and which is
still unattached, if the safety-snapshot creation call fails with dry run
off, the Reaper issues no volume-delete call for that volume, appends it to
the skipped list with the failure reason, and no ledger entry for it is
written: the delete branch is unreachable without a successful safety
snapshot. -/
theorem reaper_snapshot_failure_never_deletes (env : Ec2Env) (today : Date)
    (vols : List VolumeInfo) (vid e : String)
    (hsnap : env.createSnapshot vid = .error e) :
    AwsCall.deleteVolume vid ∉
      (cleanup_expired_volumes false env today vols emptyResults).2 ∧
    (∀ dv ∈ (cleanup_expired_volumes false env today vols emptyResults).1.volumes_deleted,
      dv.volume_id ≠ vid) ∧
    (∀ it ∈ log_deletions_to_dynamodb
        (cleanup_expired_volumes false env today vols emptyResults).1,
      it.resource_type = "ebs_volume" → it.resource_id ≠ vid) ∧
    (∀ v ∈ vols, v.volumeId = vid → v.attachments = 0 →
      ∀ d, extractDeadline v.tags = some d → Date.le d today = true →
      (⟨vid, "snapshot_failed: " ++ e⟩ : SkipRecord) ∈
        (cleanup_expired_volumes false env today vols emptyResults).1.volumes_skipped) := by
  have hdel : ∀ dv ∈ (cleanup_expired_volumes false env today vols
      emptyResults).1.volumes_deleted, dv.volume_id ≠ vid := by
    intro dv hdv
    rcases cleanup_volumes_deleted_mem env today vols emptyResults dv hdv with h | h
    · cases h
    · obtain ⟨v, _, sid, hok, hid, -⟩ := h
      intro hvid
      rw [hid] at hvid
      rw [hvid, hsnap] at hok
      cases hok
  refine ⟨?_, hdel, ?_, ?_⟩
  · intro hc
    obtain ⟨v, -, hcase⟩ := cleanup_volumes_calls_mem env today vols emptyResults _ hc
    rcases hcase with h | ⟨h, sid, hok⟩
    · cases h
    · have h2 : vid = v.volumeId := by injection h
      rw [← h2, hsnap] at hok
      cases hok
  · intro it hit htype
    unfold log_deletions_to_dynamodb at hit
    rcases List.mem_append.1 hit with hAB | hC
    · rcases List.mem_append.1 hAB with hA | hB
      · obtain ⟨dv, hdv, rfl⟩ := List.mem_map.1 hA
        exact hdel dv hdv
      · obtain ⟨ds, hds, rfl⟩ := List.mem_map.1 hB
        simp at htype
    · obtain ⟨re, hre, rfl⟩ := List.mem_map.1 hC
      simp at htype
  · intro v hv hvid hatt d hd hexp
    have := cleanup_volumes_skip_snapshot_failed env today vols emptyResults v d e hv
      hd hexp hatt (by rw [hvid]; exact hsnap)
    rw [hvid] at this
    exact this

/-- Witness for C1 at a concrete run: a tagged, expired, unattached volume
whose snapshot call fails is skipped and no delete call is issued. -/
theorem reaper_snapshot_failure_never_deletes_witness :
    AwsCall.deleteVolume "vol-1" ∉
      (cleanup_expired_volumes false
        ⟨fun _ => .error "err", fun _ => .ok (), fun _ => .ok (), fun _ => .ok ()⟩
        ⟨2025, 1, 2⟩
        [⟨"vol-1", 8, "gp2", 0, [⟨"CostOptimization", "DeleteAfter-2025-01-01"⟩]⟩]
        emptyResults).2 ∧
    (⟨"vol-1", "snapshot_failed: err"⟩ : SkipRecord) ∈
      (cleanup_expired_volumes false
        ⟨fun _ => .error "err", fun _ => .ok (), fun _ => .ok (), fun _ => .ok ()⟩
        ⟨2025, 1, 2⟩
        [⟨"vol-1", 8, "gp2", 0, [⟨"CostOptimization", "DeleteAfter-2025-01-01"⟩]⟩]
        emptyResults).1.volumes_skipped := by
  have h := reaper_snapshot_failure_never_deletes
    ⟨fun _ => .error "err", fun _ => .ok (), fun _ => .ok (), fun _ => .ok ()⟩
    ⟨2025, 1, 2⟩
    [⟨"vol-1", 8, "gp2", 0, [⟨"CostOptimization", "DeleteAfter-2025-01-01"⟩]⟩]
    "vol-1" "err" rfl
  refine ⟨h.1, ?_⟩
  exact h.2.2.2 _ (List.mem_singleton.mpr rfl) rfl rfl ⟨2025, 1, 1⟩ (by decide) (by decide)

/-! ### Claim C2 -/

/-- C2: for every resource the Reaper destroys in a non-dry run — volume
deleted after a successful safety snapshot, snapshot deleted, or address
lease released — exactly one ledger entry is put (assuming the store
accepts the writes, as the model does), keyed by resource kind + id + run
date, with `resource_id` and `deleted_date` matching the resource and the
run date. -/
theorem reaper_ledger_entry_per_destruction (env : Ec2Env) (today : Date)
    (vols : List VolumeInfo) (snaps : List SnapshotInfo) (addrs : List AddressInfo) :
    ((reaperRun false env today vols snaps addrs).ledger).map
        (fun it => (it.deletion_id, it.resource_id, it.deleted_date)) =
      ((reaperRun false env today vols snaps addrs).results.volumes_deleted).map
        (fun dv => ("volume-" ++ dv.volume_id ++ "-" ++ today.iso, dv.volume_id, today.iso))
      ++ ((reaperRun false env today vols snaps addrs).results.snapshots_deleted).map
        (fun ds => ("snapshot-" ++ ds.snapshot_id ++ "-" ++ today.iso, ds.snapshot_id, today.iso))
      ++ ((reaperRun false env today vols snaps addrs).results.eips_released).map
        (fun re => ("eip-" ++ re.allocation_id ++ "-" ++ today.iso, re.allocation_id, today.iso)) := by
  have hres : (reaperRun false env today vols snaps addrs).results =
      (cleanup_expired_eips false env today addrs
        (cleanup_expired_snapshots false env today snaps
          (cleanup_expired_volumes false env today vols emptyResults).1).1).1 := rfl
  have hled : (reaperRun false env today vols snaps addrs).ledger =
      log_deletions_to_dynamodb (reaperRun false env today vols snaps addrs).results := rfl
  have hvol : ∀ dv ∈ (reaperRun false env today vols snaps addrs).results.volumes_deleted,
      dv.deleted_date = today.iso := by
    intro dv hdv
    rw [hres, (cleanup_eips_other_fields env today addrs _).1,
        (cleanup_snapshots_other_fields env today snaps _).1] at hdv
    rcases cleanup_volumes_deleted_mem env today vols emptyResults dv hdv with h | h
    · cases h
    · obtain ⟨v, -, sid, -, -, hdate⟩ := h
      exact hdate
  have hsnap : ∀ ds ∈ (reaperRun false env today vols snaps addrs).results.snapshots_deleted,
      ds.deleted_date = today.iso := by
    intro ds hds
    rw [hres, (cleanup_eips_other_fields env today addrs _).2] at hds
    rcases cleanup_snapshots_deleted_mem env today snaps _ ds hds with h | h
    · rw [(cleanup_volumes_other_fields env today vols emptyResults).1] at h
      cases h
    · exact h
  have heip : ∀ re ∈ (reaperRun false env today vols snaps addrs).results.eips_released,
      re.released_date = today.iso := by
    intro re hre
    rw [hres] at hre
    rcases cleanup_eips_released_mem env today addrs _ re hre with h | h
    · rw [(cleanup_snapshots_other_fields env today snaps _).2,
          (cleanup_volumes_other_fields env today vols emptyResults).2] at h
      cases h
    · exact h
  rw [hled]
  unfold log_deletions_to_dynamodb
  rw [List.map_append, List.map_append, List.map_map, List.map_map, List.map_map]
  refine congrArg₂ HAppend.hAppend (congrArg₂ HAppend.hAppend ?_ ?_) ?_
  · apply List.map_congr_left
    intro dv hdv
    simp [Function.comp, hvol dv hdv]
  · apply List.map_congr_left
    intro ds hds
    simp [Function.comp, hsnap ds hds]
  · apply List.map_congr_left
    intro re hre
    simp [Function.comp, heip re hre]

/-! ### Claim C3 (corrected) -/

/-- C3 counterexample: a re-attached expired volume and a re-associated
expired address lease produce no destructive call and no ledger entry, but
the recorded volume skip reason is `attached_to_instance`, not
`"now in use"`, and the address skip is recorded in no skip list at all. -/
theorem reaper_now_in_use_reason_counterexample :
    ((reaperRun false
        ⟨fun v => .ok ("snap-" ++ v), fun _ => .ok (), fun _ => .ok (), fun _ => .ok ()⟩
        ⟨2025, 1, 2⟩
        [⟨"vol-1", 8, "gp2", 1, [⟨"CostOptimization", "DeleteAfter-2025-01-01"⟩]⟩]
        []
        [⟨"eipalloc-1", "1.2.3.4", true, [⟨"CostOptimization", "DeleteAfter-2025-01-01"⟩]⟩]).calls = [] ∧
     (reaperRun false
        ⟨fun v => .ok ("snap-" ++ v), fun _ => .ok (), fun _ => .ok (), fun _ => .ok ()⟩
        ⟨2025, 1, 2⟩
        [⟨"vol-1", 8, "gp2", 1, [⟨"CostOptimization", "DeleteAfter-2025-01-01"⟩]⟩]
        []
        [⟨"eipalloc-1", "1.2.3.4", true, [⟨"CostOptimization", "DeleteAfter-2025-01-01"⟩]⟩]).ledger = [] ∧
     (reaperRun false
        ⟨fun v => .ok ("snap-" ++ v), fun _ => .ok (), fun _ => .ok (), fun _ => .ok ()⟩
        ⟨2025, 1, 2⟩
        [⟨"vol-1", 8, "gp2", 1, [⟨"CostOptimization", "DeleteAfter-2025-01-01"⟩]⟩]
        []
        [⟨"eipalloc-1", "1.2.3.4", true, [⟨"CostOptimization", "DeleteAfter-2025-01-01"⟩]⟩]).results.volumes_skipped =
        [⟨"vol-1", "attached_to_instance"⟩] ∧
     (reaperRun false
        ⟨fun v => .ok ("snap-" ++ v), fun _ => .ok (), fun _ => .ok (), fun _ => .ok ()⟩
        ⟨2025, 1, 2⟩
        [⟨"vol-1", 8, "gp2", 1, [⟨"CostOptimization", "DeleteAfter-2025-01-01"⟩]⟩]
        []
        [⟨"eipalloc-1", "1.2.3.4", true, [⟨"CostOptimization", "DeleteAfter-2025-01-01"⟩]⟩]).results.snapshots_skipped = []) ∧
    ¬ ∃ s ∈ (reaperRun false
        ⟨fun v => .ok ("snap-" ++ v), fun _ => .ok (), fun _ => .ok (), fun _ => .ok ()⟩
        ⟨2025, 1, 2⟩
        [⟨"vol-1", 8, "gp2", 1, [⟨"CostOptimization", "DeleteAfter-2025-01-01"⟩]⟩]
        []
        [⟨"eipalloc-1", "1.2.3.4", true, [⟨"CostOptimization", "DeleteAfter-2025-01-01"⟩]⟩]).results.volumes_skipped,
      s.reason = "now in use" := by
  constructor
  · exact ⟨rfl, rfl, rfl, rfl⟩
  · decide

/-- C3 amended: a tagged resource with expired deadline that is now
re-attached (volume) or re-associated (address lease) triggers no
destructive call and no ledger change; the volume is appended to the
skipped list with reason `attached_to_instance`, while the address-lease
skip leaves the results untouched (it is only logged). -/
theorem reaper_in_use_resources_skipped (env : Ec2Env) (today : Date)
    (r : CleanupResults) (v : VolumeInfo) (a : AddressInfo) (d d2 : Date)
    (hvd : extractDeadline v.tags = some d) (hvexp : Date.le d today = true)
    (hvatt : 0 < v.attachments)
    (had : extractDeadline a.tags = some d2) (haexp : Date.le d2 today = true)
    (hassoc : a.associated = true) :
    processVolume false env today r v =
      ({ r with volumes_skipped :=
            r.volumes_skipped ++ [⟨v.volumeId, "attached_to_instance"⟩] }, []) ∧
    processAddress false env today r a = (r, []) ∧
    log_deletions_to_dynamodb (processVolume false env today r v).1 =
      log_deletions_to_dynamodb r := by
  have h1 := processVolume_attached false env today r v d hvd hvexp hvatt
  refine ⟨h1, processAddress_associated false env today r a d2 had haexp hassoc, ?_⟩
  rw [h1]
  rfl

/-- Witness for the amended C3 at a concrete re-attached volume and
re-associated address lease. -/
theorem reaper_in_use_resources_skipped_witness :
    processVolume false
        ⟨fun v => .ok ("snap-" ++ v), fun _ => .ok (), fun _ => .ok (), fun _ => .ok ()⟩
        ⟨2025, 1, 2⟩ emptyResults
        ⟨"vol-1", 8, "gp2", 1, [⟨"CostOptimization", "DeleteAfter-2025-01-01"⟩]⟩ =
      ({ emptyResults with volumes_skipped := [⟨"vol-1", "attached_to_instance"⟩] }, []) ∧
    processAddress false
        ⟨fun v => .ok ("snap-" ++ v), fun _ => .ok (), fun _ => .ok (), fun _ => .ok ()⟩
        ⟨2025, 1, 2⟩ emptyResults
        ⟨"eipalloc-1", "1.2.3.4", true, [⟨"CostOptimization", "DeleteAfter-2025-01-01"⟩]⟩ =
      (emptyResults, []) := by
  have h := reaper_in_use_resources_skipped
    ⟨fun v => .ok ("snap-" ++ v), fun _ => .ok (), fun _ => .ok (), fun _ => .ok ()⟩
    ⟨2025, 1, 2⟩ emptyResults
    ⟨"vol-1", 8, "gp2", 1, [⟨"CostOptimization", "DeleteAfter-2025-01-01"⟩]⟩
    ⟨"eipalloc-1", "1.2.3.4", true, [⟨"CostOptimization", "DeleteAfter-2025-01-01"⟩]⟩
    ⟨2025, 1, 1⟩ ⟨2025, 1, 1⟩ (by decide) (by decide) (by decide) (by decide)
    (by decide) rfl
  exact ⟨h.1, h.2.1⟩

/-! ### Claim C5 -/

/-- C5: with the dry-run toggle on, a Reaper run issues no create-snapshot,
delete-volume, delete-snapshot or release-address call and writes no ledger
entry; scanning, tag parsing and re-validation still run (the expired
re-attached volumes are still recorded as skipped) and the summary report
is still produced, so external resource state and the ledger are
unchanged. -/
theorem reaper_dry_run_suppresses_all_effects (env : Ec2Env) (today : Date)
    (vols : List VolumeInfo) (snaps : List SnapshotInfo) (addrs : List AddressInfo) :
    (reaperRun true env today vols snaps addrs).calls = [] ∧
    (reaperRun true env today vols snaps addrs).ledger = [] ∧
    (reaperRun true env today vols snaps addrs).results.volumes_deleted = [] ∧
    (reaperRun true env today vols snaps addrs).results.snapshots_deleted = [] ∧
    (reaperRun true env today vols snaps addrs).results.eips_released = [] ∧
    (reaperRun true env today vols snaps addrs).results.volumes_skipped =
      (vols.filter (expiredAttached today)).map
        (fun v => ⟨v.volumeId, "attached_to_instance"⟩) ∧
    (reaperRun true env today vols snaps addrs).message =
      "AWS Cleanup: No expired resources found. All tagged resources still in grace period." := by
  simp only [reaperRun, cleanup_volumes_dryRun, cleanup_snapshots_dryRun, cleanup_eips_dryRun]
  refine ⟨rfl, rfl, rfl, rfl, rfl, ?_, rfl⟩
  simp [emptyResults]

/-! ### Lemmas about the classifier and the tagger -/

theorem find_unattached_eq (vols : List VolumeInfo) :
    find_unattached_volumes vols =
      (vols.filter (fun v => v.attachments == 0)).map unattachedFinding := by
  induction vols with
  | nil => rfl
  | cons v vs ih =>
    cases h : v.attachments == 0 <;>
      simp [find_unattached_volumes, List.filter_cons, h, ih]

theorem find_old_snapshots_eq (now : Int) (snaps : List SnapshotInfo) :
    find_old_snapshots now snaps =
      (snaps.filter (fun s =>
        decide (s.startTime < now - (SNAPSHOT_AGE_THRESHOLD_DAYS : Int) * 86400))).map
        (oldSnapshotFinding now) := by
  induction snaps with
  | nil => rfl
  | cons s ss ih =>
    by_cases h : s.startTime < now - (SNAPSHOT_AGE_THRESHOLD_DAYS : Int) * 86400 <;>
      simp [find_old_snapshots, List.filter_cons, h, ih]

theorem find_idle_eq (addrs : List AddressInfo) :
    find_idle_elastic_ips addrs =
      (addrs.filter (fun a => !a.associated)).map idleEipFinding := by
  induction addrs with
  | nil => rfl
  | cons a as_ ih =>
    cases h : a.associated <;>
      simp [find_idle_elastic_ips, List.filter_cons, h, ih]

theorem eip_calls_ids (l : List Finding) (auditTags : List Tag) :
    ((l.map (fun eip =>
        ({ resources := [eip.resource_id], tags := auditTags } : CreateTagsCall))).map
      (fun c => c.resources)).flatten = l.map (·.resource_id) := by
  induction l with
  | nil => rfl
  | cons x xs ih =>
    simp only [List.map_cons, List.flatten_cons]
    rw [ih]
    rfl

theorem taggedIds_tag_resources (runDate : Date) (f : Findings) :
    taggedIds (tag_resources_for_deletion runDate f) =
      f.unattached_volumes.map (·.resource_id) ++ f.old_snapshots.map (·.resource_id)
      ++ f.idle_elastic_ips.map (·.resource_id) := by
  unfold taggedIds tag_resources_for_deletion
  cases h : (f.unattached_volumes.map (·.resource_id) ++
      f.old_snapshots.map (·.resource_id)).isEmpty
  · simp only [h, Bool.false_eq_true, if_false, List.map_append, List.flatten_append,
      List.map_cons, List.map_nil, List.flatten_cons, List.flatten_nil, List.append_nil]
    rw [eip_calls_ids]
  · have h2 := List.isEmpty_iff.1 h
    rcases List.append_eq_nil.1 h2 with ⟨ha, hb⟩
    simp only [ha, hb, List.nil_append, List.isEmpty_nil, if_true, List.map_nil]
    rw [eip_calls_ids]

theorem tag_calls_contain_deadline (runDate : Date) (f : Findings)
    (c : CreateTagsCall) (hc : c ∈ tag_resources_for_deletion runDate f) :
    (⟨TAG_KEY, TAG_VALUE_PREFIX ++ (runDate.addDays GRACE_PERIOD_DAYS).iso⟩ : Tag) ∈
      c.tags := by
  simp only [tag_resources_for_deletion] at hc
  rcases List.mem_append.1 hc with h1 | h2
  · split at h1
    · cases h1
    · rcases List.mem_singleton.1 h1 with rfl
      exact List.mem_cons_self _ _
  · obtain ⟨e, he, rfl⟩ := List.mem_map.1 h2
    exact List.mem_cons_self _ _

theorem mem_unattached_ids (vols : List VolumeInfo) (x : String)
    (h : x ∈ (find_unattached_volumes vols).map (·.resource_id)) :
    ∃ v ∈ vols, v.attachments = 0 ∧ v.volumeId = x := by
  rw [find_unattached_eq, List.map_map] at h
  obtain ⟨v, hv, hx⟩ := List.mem_map.1 h
  obtain ⟨hv1, hv2⟩ := List.mem_filter.1 hv
  exact ⟨v, hv1, by simpa using hv2, hx⟩

theorem mem_old_snapshot_ids (now : Int) (snaps : List SnapshotInfo) (x : String)
    (h : x ∈ (find_old_snapshots now snaps).map (·.resource_id)) :
    x ∈ snaps.map (·.snapshotId) := by
  rw [find_old_snapshots_eq, List.map_map] at h
  obtain ⟨s, hs, hx⟩ := List.mem_map.1 h
  exact List.mem_map.2 ⟨s, (List.mem_filter.1 hs).1, hx⟩

theorem mem_idle_eip_ids (addrs : List AddressInfo) (x : String)
    (h : x ∈ (find_idle_elastic_ips addrs).map (·.resource_id)) :
    x ∈ addrs.map (·.allocationId) := by
  rw [find_idle_eq, List.map_map] at h
  obtain ⟨a, ha, hx⟩ := List.mem_map.1 h
  exact List.mem_map.2 ⟨a, (List.mem_filter.1 ha).1, hx⟩

/-! ### Claim C4 -/

/-- C4: every flagged volume, snapshot and address lease of a Finder run is
tagged, and the deadline tag written is the fixed prefix `DeleteAfter-`
followed by the run date plus the 7-day grace period, rendered
`YYYY-MM-DD` — the same value on every `create_tags` call of the run. -/
theorem tagger_writes_uniform_deadline (runDate : Date) (f : Findings) :
    (∀ c ∈ tag_resources_for_deletion runDate f,
      (⟨TAG_KEY, TAG_VALUE_PREFIX ++ (runDate.addDays GRACE_PERIOD_DAYS).iso⟩ : Tag) ∈
        c.tags) ∧
    taggedIds (tag_resources_for_deletion runDate f) =
      f.unattached_volumes.map (·.resource_id) ++ f.old_snapshots.map (·.resource_id)
      ++ f.idle_elastic_ips.map (·.resource_id) ∧
    GRACE_PERIOD_DAYS = 7 :=
  ⟨fun c hc => tag_calls_contain_deadline runDate f c hc,
   taggedIds_tag_resources runDate f, rfl⟩

/-- Witness for C4: tagging a volume and a snapshot found on 2025-12-28
writes the deadline `DeleteAfter-2026-01-04` (7 days later, with year
rollover) on the batch call. -/
theorem tagger_writes_uniform_deadline_witness :
    (⟨"CostOptimization", "DeleteAfter-2026-01-04"⟩ : Tag) ∈
      (CreateTagsCall.mk ["vol-1", "snap-1"]
        [⟨"CostOptimization", "DeleteAfter-2026-01-04"⟩,
         ⟨"AutomatedBy", "CostAnalyzer"⟩, ⟨"FoundDate", "2025-12-28"⟩]).tags := by
  have h := (tagger_writes_uniform_deadline ⟨2025, 12, 28⟩
      ⟨[⟨"ebs_volume", "vol-1", 0.91, 8, 0⟩], [],
       [⟨"snapshot", "snap-1", 2.85, 50, 120⟩], [], 3.76⟩).1
      (CreateTagsCall.mk ["vol-1", "snap-1"]
        [⟨"CostOptimization", "DeleteAfter-2026-01-04"⟩,
         ⟨"AutomatedBy", "CostAnalyzer"⟩, ⟨"FoundDate", "2025-12-28"⟩])
  exact h (by decide)

/-! ### Claim C6 -/

/-- C6: every volume with zero attachments yields exactly one finding whose
monthly cost is its size times the per-GB rate of its type (gp2 0.114,
gp3 0.091, io1 0.143, io2 0.143, sc1 0.029, st1 0.051, standard 0.057,
default 0.10 for an unknown type) rounded to 2 decimals, and a volume with
an attachment yields no finding. -/
theorem classifier_unattached_volume_cost (vols : List VolumeInfo) :
    find_unattached_volumes vols =
      (vols.filter (fun v => v.attachments == 0)).map unattachedFinding ∧
    (∀ v : VolumeInfo, (unattachedFinding v).monthly_cost =
      round2 ((v.size : ℚ) * price_per_gb v.volumeType)) ∧
    price_per_gb "gp2" = 0.114 ∧ price_per_gb "gp3" = 0.091 ∧
    price_per_gb "io1" = 0.143 ∧ price_per_gb "io2" = 0.143 ∧
    price_per_gb "sc1" = 0.029 ∧ price_per_gb "st1" = 0.051 ∧
    price_per_gb "standard" = 0.057 ∧
    (∀ t : String,
      t ∉ (["gp2", "gp3", "io1", "io2", "sc1", "st1", "standard"] : List String) →
      price_per_gb t = 0.10) := by
  refine ⟨find_unattached_eq vols, fun v => rfl, rfl, rfl, rfl, rfl, rfl, rfl, rfl, ?_⟩
  intro t ht
  simp only [List.mem_cons, List.not_mem_nil, or_false, not_or] at ht
  obtain ⟨h1, h2, h3, h4, h5, h6, h7⟩ := ht
  simp [price_per_gb, h1, h2, h3, h4, h5, h6, h7]

/-- Witness for C6: a run over one unattached gp2, one unattached
unknown-type and one attached volume produces findings for exactly the two
unattached ones, and the unknown type prices at the 0.10 default. -/
theorem classifier_unattached_volume_cost_witness :
    find_unattached_volumes
        [⟨"vol-a", 8, "gp2", 0, []⟩, ⟨"vol-b", 50, "mystery", 0, []⟩,
         ⟨"vol-c", 100, "gp3", 2, []⟩] =
      [unattachedFinding ⟨"vol-a", 8, "gp2", 0, []⟩,
       unattachedFinding ⟨"vol-b", 50, "mystery", 0, []⟩] ∧
    price_per_gb "mystery" = 0.10 := by
  have h := classifier_unattached_volume_cost
    [⟨"vol-a", 8, "gp2", 0, []⟩, ⟨"vol-b", 50, "mystery", 0, []⟩,
     ⟨"vol-c", 100, "gp3", 2, []⟩]
  refine ⟨?_, h.2.2.2.2.2.2.2.2.2 "mystery" (by decide)⟩
  rw [h.1]
  rfl

/-! ### Claim C7 -/

/-- C7: a snapshot is an old-snapshot finding iff its start time is
strictly older than now minus the 90-day threshold — a start time exactly
at the boundary is excluded — and each finding's age_days is the floor of
the day count between now and the start time. -/
theorem classifier_old_snapshot_threshold (now : Int) (snaps : List SnapshotInfo) :
    find_old_snapshots now snaps =
      (snaps.filter (fun s =>
        decide (s.startTime < now - (SNAPSHOT_AGE_THRESHOLD_DAYS : Int) * 86400))).map
        (oldSnapshotFinding now) ∧
    (∀ s : SnapshotInfo, (oldSnapshotFinding now s).age_days =
      ⌊((now - s.startTime : Int) : ℚ) / 86400⌋) ∧
    (∀ s : SnapshotInfo,
      s.startTime = now - (SNAPSHOT_AGE_THRESHOLD_DAYS : Int) * 86400 →
      find_old_snapshots now [s] = []) := by
  refine ⟨find_old_snapshots_eq now snaps, ?_, ?_⟩
  · intro s
    show Int.fdiv (now - s.startTime) 86400 = _
    rw [Int.fdiv_eq_ediv _ (by norm_num),
      show ((86400 : ℚ)) = ((86400 : ℕ) : ℚ) by norm_num,
      Rat.floor_intCast_div_natCast]
    rfl
  · intro s hs
    simp [find_old_snapshots, hs]

/-- Witness for C7: a snapshot starting exactly at the 90-day boundary is
excluded. -/
theorem classifier_old_snapshot_threshold_witness :
    find_old_snapshots 7776000 [⟨"snap-1", 50, 0, []⟩] = [] := by
  have h := (classifier_old_snapshot_threshold 7776000 [⟨"snap-1", 50, 0, []⟩]).2.2
  exact h ⟨"snap-1", 50, 0, []⟩ (by decide)

/-! ### Claims C8 and C9 (aggregator) -/

theorem savingsQuery_ok_avg (items : List LedgerItem) (s : SavingsSummary)
    (h : savingsQuery items = .ok s) :
    s.average_savings_per_day =
      (if 0 < savingsTotal items then round2 (savingsTotal items / 30) else 0) := by
  simp only [savingsQuery] at h
  split at h
  · cases h
  · injection h with h2
    subst h2
    rfl

/-- C8: on a ledger holding one ebs_volume entry of 5.00 dated 2025-01-01
and one elastic_ip entry of 3.60 dated 2025-01-10, the aggregator returns
total 8.60, breakdown ebs_volume 1 / snapshot 0 / elastic_ip 1, first
2025-01-01, last 2025-01-10 and average per day 0.29; in general the
average divides the accumulated total by a fixed 30 — and 30 is not the
observed 10-day span, whose divisor would give 0.86. -/
theorem aggregator_concrete_run_and_fixed_divisor :
    savingsQuery
        [⟨"volume-vol-1-2025-01-01", "2025-01-01", "ebs_volume", "vol-1", 5⟩,
         ⟨"eip-eipalloc-1-2025-01-10", "2025-01-10", "elastic_ip", "eipalloc-1", 3.6⟩] =
      .ok ⟨2, 8.6, 103.2, 1, 0, 1, "2025-01-01", "2025-01-10", 10, 0.29⟩ ∧
    (∀ (items : List LedgerItem) (s : SavingsSummary), savingsQuery items = .ok s →
      s.average_savings_per_day =
        (if 0 < savingsTotal items then round2 (savingsTotal items / 30) else 0)) ∧
    round2 ((8.6 : ℚ) / 10) ≠ round2 ((8.6 : ℚ) / 30) := by
  refine ⟨?_, savingsQuery_ok_avg, ?_⟩
  · have h1 : firstLastDaysOf
        [⟨"volume-vol-1-2025-01-01", "2025-01-01", "ebs_volume", "vol-1", 5⟩,
         ⟨"eip-eipalloc-1-2025-01-10", "2025-01-10", "elastic_ip", "eipalloc-1", 3.6⟩] =
        .ok ("2025-01-01", "2025-01-10", 10) := by rfl
    unfold savingsQuery
    rw [h1]
    simp only [savingsTotal, countType, List.foldl, List.filter, List.length,
      Except.ok.injEq, SavingsSummary.mk.injEq]
    norm_num [round2, round_eq]
  · norm_num [round2, round_eq]

/-- Witness for C8's quantified part at the concrete two-entry ledger: its
reported average equals the total divided by the fixed 30. -/
theorem aggregator_fixed_divisor_witness :
    (0.29 : ℚ) =
      (if 0 < savingsTotal
          [⟨"volume-vol-1-2025-01-01", "2025-01-01", "ebs_volume", "vol-1", 5⟩,
           ⟨"eip-eipalloc-1-2025-01-10", "2025-01-10", "elastic_ip", "eipalloc-1", 3.6⟩]
       then round2 (savingsTotal
          [⟨"volume-vol-1-2025-01-01", "2025-01-01", "ebs_volume", "vol-1", 5⟩,
           ⟨"eip-eipalloc-1-2025-01-10", "2025-01-10", "elastic_ip", "eipalloc-1", 3.6⟩] / 30)
       else 0) := by
  have h := aggregator_concrete_run_and_fixed_divisor
  exact h.2.1
    [⟨"volume-vol-1-2025-01-01", "2025-01-01", "ebs_volume", "vol-1", 5⟩,
     ⟨"eip-eipalloc-1-2025-01-10", "2025-01-10", "elastic_ip", "eipalloc-1", 3.6⟩]
    ⟨2, 8.6, 103.2, 1, 0, 1, "2025-01-01", "2025-01-10", 10, 0.29⟩ h.1

/-- C9: on an empty ledger the aggregator returns, without error, zero
resources, zero monthly and annual savings, an all-zero breakdown, zero
days operating, zero average per day, and the `N/A` placeholder as both
first and last deletion date. -/
theorem aggregator_empty_ledger :
    savingsQuery [] = .ok ⟨0, 0, 0, 0, 0, 0, "N/A", "N/A", 0, 0⟩ := by
  simp only [savingsQuery, savingsTotal, countType, List.foldl, List.filter, List.length,
    Except.ok.injEq, SavingsSummary.mk.injEq]
  norm_num [round2, round_eq]
  rfl

/-! ### Claim C10 -/

/-- C10: a Finder run tags exactly the resources of its unattached-volume,
old-snapshot and idle-address findings; stopped-instance findings are
counted in the run's waste total and findings count, but neither a stopped
instance nor a volume mapped to it is tagged (a volume that is attached
cannot be an unattached finding, and instance ids name no volume, snapshot
or address), and the Reaper leaves any volume without a parseable deadline
tag untouched, so such resources never enter the deletion lifecycle. -/
theorem finder_never_tags_stopped_instances (runDate : Date) (now : Int)
    (vols : List VolumeInfo) (insts : List InstanceInfo)
    (snaps : List SnapshotInfo) (addrs : List AddressInfo) :
    taggedIds (analyzerRun runDate now vols insts snaps addrs).tagCalls =
      (analyzerRun runDate now vols insts snaps addrs).findings.unattached_volumes.map
        (·.resource_id)
      ++ (analyzerRun runDate now vols insts snaps addrs).findings.old_snapshots.map
        (·.resource_id)
      ++ (analyzerRun runDate now vols insts snaps addrs).findings.idle_elastic_ips.map
        (·.resource_id) ∧
    (analyzerRun runDate now vols insts snaps addrs).findings.total_waste_monthly =
      sumCosts (find_unattached_volumes vols)
      + sumCosts (find_stopped_instances_with_volumes vols insts)
      + sumCosts (find_old_snapshots now snaps)
      + sumCosts (find_idle_elastic_ips addrs) ∧
    (analyzerRun runDate now vols insts snaps addrs).findingsCount =
      (find_unattached_volumes vols).length
      + (find_stopped_instances_with_volumes vols insts).length
      + (find_old_snapshots now snaps).length
      + (find_idle_elastic_ips addrs).length ∧
    (∀ i ∈ insts, ∀ vid ∈ i.blockDeviceVolumeIds,
      (∀ v ∈ vols, v.volumeId = vid → v.attachments ≠ 0) →
      vid ∉ snaps.map (·.snapshotId) → vid ∉ addrs.map (·.allocationId) →
      vid ∉ taggedIds (analyzerRun runDate now vols insts snaps addrs).tagCalls) ∧
    (∀ i ∈ insts, i.instanceId ∉ vols.map (·.volumeId) →
      i.instanceId ∉ snaps.map (·.snapshotId) →
      i.instanceId ∉ addrs.map (·.allocationId) →
      i.instanceId ∉ taggedIds (analyzerRun runDate now vols insts snaps addrs).tagCalls) ∧
    (∀ (env : Ec2Env) (today : Date) (r : CleanupResults) (v : VolumeInfo),
      extractDeadline v.tags = none → processVolume false env today r v = (r, [])) := by
  have htag : taggedIds (analyzerRun runDate now vols insts snaps addrs).tagCalls =
      (find_unattached_volumes vols).map (·.resource_id)
      ++ (find_old_snapshots now snaps).map (·.resource_id)
      ++ (find_idle_elastic_ips addrs).map (·.resource_id) :=
    taggedIds_tag_resources runDate _
  have hnot : ∀ x : String,
      (∀ v ∈ vols, v.volumeId = x → v.attachments ≠ 0) →
      x ∉ snaps.map (·.snapshotId) → x ∉ addrs.map (·.allocationId) →
      x ∉ taggedIds (analyzerRun runDate now vols insts snaps addrs).tagCalls := by
    intro x hvols hsnaps haddrs hx
    rw [htag] at hx
    rcases List.mem_append.1 hx with hAB | hC
    · rcases List.mem_append.1 hAB with hA | hB
      · obtain ⟨v, hv, hva, hvid⟩ := mem_unattached_ids vols x hA
        exact hvols v hv hvid hva
      · exact hsnaps (mem_old_snapshot_ids now snaps x hB)
    · exact haddrs (mem_idle_eip_ids addrs x hC)
  refine ⟨htag, rfl, rfl, ?_, ?_, ?_⟩
  · intro i _ vid _ hvols hsnaps haddrs
    exact hnot vid hvols hsnaps haddrs
  · intro i _ hvols hsnaps haddrs
    refine hnot i.instanceId ?_ hsnaps haddrs
    intro v hv hvid _
    exact hvols (List.mem_map.2 ⟨v, hv, hvid⟩)
  · intro env today r v hd
    unfold processVolume
    rw [hd]

/-- Witness for C10: in a concrete inventory with a stopped instance whose
mapped volume is still attached, the Finder tags the unattached volume,
the old snapshot and the idle address, but neither the instance nor its
attached volume. -/
theorem finder_never_tags_stopped_instances_witness :
    "vol-att" ∉ taggedIds (analyzerRun ⟨2025, 1, 1⟩ 10000000000
      [⟨"vol-att", 20, "gp2", 1, []⟩, ⟨"vol-free", 8, "gp2", 0, []⟩]
      [⟨"i-1", "stopped", "t2.micro", ["vol-att"], []⟩]
      [⟨"snap-old", 50, 0, []⟩]
      [⟨"eipalloc-1", "1.2.3.4", false, []⟩]).tagCalls ∧
    "i-1" ∉ taggedIds (analyzerRun ⟨2025, 1, 1⟩ 10000000000
      [⟨"vol-att", 20, "gp2", 1, []⟩, ⟨"vol-free", 8, "gp2", 0, []⟩]
      [⟨"i-1", "stopped", "t2.micro", ["vol-att"], []⟩]
      [⟨"snap-old", 50, 0, []⟩]
      [⟨"eipalloc-1", "1.2.3.4", false, []⟩]).tagCalls := by
  have h := finder_never_tags_stopped_instances ⟨2025, 1, 1⟩ 10000000000
    [⟨"vol-att", 20, "gp2", 1, []⟩, ⟨"vol-free", 8, "gp2", 0, []⟩]
    [⟨"i-1", "stopped", "t2.micro", ["vol-att"], []⟩]
    [⟨"snap-old", 50, 0, []⟩]
    [⟨"eipalloc-1", "1.2.3.4", false, []⟩]
  constructor
  · exact h.2.2.2.1 ⟨"i-1", "stopped", "t2.micro", ["vol-att"], []⟩ (by decide)
      "vol-att" (by decide) (by decide) (by decide) (by decide)
  · exact h.2.2.2.2.1 ⟨"i-1", "stopped", "t2.micro", ["vol-att"], []⟩ (by decide)
      (by decide) (by decide) (by decide)

end AwsCostOptimizer
